import Mathlib

/-!
Shallow embedding of the `bb-market-cache` repository
(`api/market-overview.js` and `api/coin-tickers.js`).

Upstream data arrives as JSON, so every numeric field is a finite number,
`null`, or absent; non-numeric junk coerces to NaN.  JavaScript numbers are
modelled as rationals (`ℚ`); the non-finite coercion results (NaN from
`undefined` or non-numeric values) are modelled by the `Option` layer of the
coercion function.  Machine-float rounding is not modelled.
-/

/-- A JSON field value as seen by the JavaScript code:
`undef` models an absent field (JS `undefined`), `jnull` models JSON `null`,
`num q` a finite JSON number, and `nonNumeric` any other value whose numeric
coercion is not finite (non-numeric strings, objects, arrays). -/
inductive JsVal where
  | undef
  | jnull
  | num (q : ℚ)
  | nonNumeric
deriving DecidableEq, Repr

/-- Models `safeNumber(n)` from `market-overview.js`: `Number(n)` followed by
the `Number.isFinite` check, returning the number or `null`.
`Number(undefined)` is NaN (not finite), `Number(null)` is `0`,
a finite number coerces to itself, and `nonNumeric` coerces to NaN. -/
def safeNumber (v : JsVal) : Option ℚ :=
  match v with
  | .undef => none
  | .jnull => some 0
  | .num q => some q
  | .nonNumeric => none

/-- Models `median(values)` from `market-overview.js`: coerce each element
with `Number`, keep only the finite results, sort ascending
(`.sort((a, b) => a - b)`; JS sort is stable, modelled by insertion sort),
return `null` on an empty remainder, else the middle element (average of the
two central elements when the count is even).  The `Number`+`isFinite`
pipeline is the same coercion as `safeNumber`. -/
def median (values : List JsVal) : Option ℚ :=
  let arr := (values.filterMap safeNumber).insertionSort (· ≤ ·)
  if arr.length = 0 then none
  else
    let mid := arr.length / 2
    if arr.length % 2 = 0 then some ((arr.getD (mid - 1) 0 + arr.getD mid 0) / 2)
    else some (arr.getD mid 0)

/-- One entry of the upstream `/coins/markets` listing, with the fields the
code reads.  `id`, `name` and `symbol` are JSON strings; the numeric fields
are kept as raw `JsVal` because the code coerces them itself. -/
structure MarketAsset where
  id : String
  name : String
  symbol : String
  current_price : JsVal
  price_change_percentage_24h_in_currency : JsVal
  price_change_percentage_7d_in_currency : JsVal
  price_change_percentage_30d_in_currency : JsVal
  market_cap : JsVal
deriving DecidableEq, Repr

/-- Models `new Map(markets.map((c) => [c.id, c])).get(id)`.  The JS `Map`
constructor calls `set` left to right, so a later entry with the same key
overwrites an earlier one: the lookup yields the LAST asset with that id. -/
def mapLookup (markets : List MarketAsset) (id : String) : Option MarketAsset :=
  markets.foldl (fun acc c => if c.id = id then some c else acc) none

/-- The condensed per-asset view produced by `computeTop3Snapshot`.  Each
numeric field is `number | null` in JS, i.e. `Option ℚ` here. -/
structure Top3Entry where
  id : String
  name : String
  symbol : String
  priceUsd : Option ℚ
  change24hPct : Option ℚ
  change30dPct : Option ℚ
  marketCapUsd : Option ℚ
deriving DecidableEq, Repr

/-- The fixed identifier list of `computeTop3Snapshot`. -/
def top3Ids : List String := ["bitcoin", "ethereum", "solana"]

/-- The projection applied to a found asset inside `computeTop3Snapshot`. -/
def top3Project (c : MarketAsset) : Top3Entry :=
  { id := c.id
    name := c.name
    symbol := c.symbol
    priceUsd := safeNumber c.current_price
    change24hPct := safeNumber c.price_change_percentage_24h_in_currency
    change30dPct := safeNumber c.price_change_percentage_30d_in_currency
    marketCapUsd := safeNumber c.market_cap }

/-- Models `computeTop3Snapshot(markets)`: for each of the three fixed ids,
look it up in the id-keyed map and project it; ids not found yield `null`
and are dropped by `.filter(Boolean)` (here: `filterMap`). -/
def computeTop3Snapshot (markets : List MarketAsset) : List Top3Entry :=
  top3Ids.filterMap (fun id => (mapLookup markets id).map top3Project)

/-- A compact coin-row entry, the output of `buildCoinsRowFromTop3`. -/
structure CoinRow where
  id : String
  symbol : String
  name : String
  priceUsd : Option ℚ
  chg24h : Option ℚ
  chg30d : Option ℚ
deriving DecidableEq, Repr

/-- Models JS `String.prototype.toUpperCase` (ASCII range): upper-case every
character of the string. -/
def jsToUpper (s : String) : String :=
  String.mk (s.data.map Char.toUpper)

/-- Models `buildCoinsRowFromTop3(top3Snapshot)`: per-entry projection with
the symbol upper-cased (`String(c.symbol || "").toUpperCase()`; a missing or
empty symbol becomes `""`, which upper-cases to itself). -/
def buildCoinsRowFromTop3 (top3Snapshot : List Top3Entry) : List CoinRow :=
  top3Snapshot.map (fun c =>
    { id := c.id
      symbol := jsToUpper c.symbol
      name := c.name
      priceUsd := c.priceUsd
      chg24h := c.change24hPct
      chg30d := c.change30dPct })

/-- The nested `data` object of the upstream `/global` response. -/
structure GlobalData where
  market_cap_change_percentage_24h_usd : JsVal
deriving DecidableEq, Repr

/-- The upstream `/global` response body; the top-level field mirrors the
code's defensive second read (`globalJson?.market_cap_change_percentage_24h_usd`). -/
structure GlobalJson where
  data : Option GlobalData
  market_cap_change_percentage_24h_usd : JsVal
deriving DecidableEq, Repr

/-- Models `(c.price_change_percentage_..._in_currency ?? -999) > 0`:
`??` replaces only `null`/`undefined` by `-999` (not greater than 0); a
finite number compares directly; a non-numeric value coerces to NaN, and
`NaN > 0` is false. -/
def changeUp (v : JsVal) : Bool :=
  match v with
  | .undef => false
  | .jnull => false
  | .num q => decide (q > 0)
  | .nonNumeric => false

/-- Fraction of assets whose 24h change is `> 0` (after `?? -999`),
i.e. `up24h / arr.length` in `computeMood`. -/
def pctUp24h (arr : List MarketAsset) : ℚ :=
  ((arr.filter (fun c => changeUp c.price_change_percentage_24h_in_currency)).length : ℚ)
    / (arr.length : ℚ)

/-- Fraction of assets whose 7d change is `> 0` (after `?? -999`). -/
def pctUp7d (arr : List MarketAsset) : ℚ :=
  ((arr.filter (fun c => changeUp c.price_change_percentage_7d_in_currency)).length : ℚ)
    / (arr.length : ℚ)

/-- Models `btc?.price_change_percentage_30d_in_currency` for the first asset
found with id "bitcoin" (`arr.find`): an absent asset reads as `undefined`. -/
def btcField (arr : List MarketAsset) : JsVal :=
  match arr.find? (fun c => c.id = "bitcoin") with
  | none => .undef
  | some c => c.price_change_percentage_30d_in_currency

/-- `btc30d` in `computeMood`: `safeNumber(btc?....)`. -/
def btc30d (arr : List MarketAsset) : Option ℚ :=
  safeNumber (btcField arr)

/-- `medianAlt30d` in `computeMood`: the median 30d change over all assets
whose id is not "bitcoin". -/
def medianAlt30d (arr : List MarketAsset) : Option ℚ :=
  median ((arr.filter (fun c => ¬ c.id = "bitcoin")).map
    (fun c => c.price_change_percentage_30d_in_currency))

/-- `leadershipGap30d` in `computeMood`: `btc30d - medianAlt30d` when both
are non-null, else `null`. -/
def leadershipGap30d (arr : List MarketAsset) : Option ℚ :=
  match btc30d arr, medianAlt30d arr with
  | some b, some m => some (b - m)
  | _, _ => none

/-- Models `globalJson?.data?.market_cap_change_percentage_24h_usd`:
optional chaining turns a missing object into `undefined`. -/
def globalNestedField (globalJson : Option GlobalJson) : JsVal :=
  match globalJson with
  | none => .undef
  | some g =>
    match g.data with
    | none => .undef
    | some d => d.market_cap_change_percentage_24h_usd

/-- Models `globalJson?.market_cap_change_percentage_24h_usd` (the defensive
top-level read). -/
def globalTopField (globalJson : Option GlobalJson) : JsVal :=
  match globalJson with
  | none => .undef
  | some g => g.market_cap_change_percentage_24h_usd

/-- `mcapChange24h` in `computeMood`:
`safeNumber(nested) ?? safeNumber(top-level)` — `??` keeps the first operand
unless it is `null`. -/
def mcapChange24h (globalJson : Option GlobalJson) : Option ℚ :=
  match safeNumber (globalNestedField globalJson) with
  | some q => some q
  | none => safeNumber (globalTopField globalJson)

/-- Models JavaScript `Math.round`: round half toward positive infinity,
i.e. `⌊x + 1/2⌋`; Mathlib's `round` on `ℚ` has exactly this behaviour. -/
def jsRound (q : ℚ) : ℤ := round q

/-- The raw blended score of `computeMood` before rounding and clamping:
start at 50, add the two breadth terms, subtract
`Math.max(0, leadershipGap30d) * 0.5` when the gap is non-null, add
`mcapChange24h * 1.5` when it is non-null. -/
def rawScore (arr : List MarketAsset) (globalJson : Option GlobalJson) : ℚ :=
  50 + (pctUp24h arr - 1/2) * 40 + (pctUp7d arr - 1/2) * 40
    - (match leadershipGap30d arr with
       | some g => max 0 g * (1/2)
       | none => 0)
    + (match mcapChange24h globalJson with
       | some m => m * (3/2)
       | none => 0)

/-- `score = Math.max(0, Math.min(100, Math.round(score)))` in `computeMood`. -/
def clampedScore (arr : List MarketAsset) (globalJson : Option GlobalJson) : ℤ :=
  max 0 (min 100 (jsRound (rawScore arr globalJson)))

/-- The `metrics` object of a `MoodResult`; every field is nullable, and the
empty-list case returns `{}` (all fields absent, modelled as all-`none`). -/
structure MoodMetrics where
  pctUp24h : Option ℚ
  pctUp7d : Option ℚ
  btc30d : Option ℚ
  medianAlt30d : Option ℚ
  leadershipGap30d : Option ℚ
  marketCapChange24hPct : Option ℚ
deriving DecidableEq, Repr

/-- The empty `metrics: {}` object of the degenerate empty-list case. -/
def emptyMetrics : MoodMetrics :=
  { pctUp24h := none, pctUp7d := none, btc30d := none, medianAlt30d := none
    leadershipGap30d := none, marketCapChange24hPct := none }

/-- Models `Number(x.toFixed(2))`: round to 2 decimal places, ties toward
positive infinity (the float representation noise of `toFixed` is not
modelled). -/
def round2 (q : ℚ) : ℚ := (round (q * 100) : ℚ) / 100

/-- The result of `computeMood` (before the orchestrator adds `adjacent` and
`ghostKey`): `score` is an integer or `null`. -/
structure MoodResult where
  state : String
  label : String
  score : Option ℤ
  metrics : MoodMetrics
deriving DecidableEq, Repr

/-- The score-to-state threshold chain of `computeMood`.  The initial
"uneasy"/"Uneasy" assignment in the source is dead: the `if`/`else` chain
always overwrites it (the final `else` assigns "crumbs-everywhere"). -/
def stateForScore (score : ℤ) : String × String :=
  if score ≥ 75 then ("snack-mode", "Snack Mode")
  else if score ≥ 60 then ("steady-bite", "Steady Bite")
  else if score ≥ 45 then ("side-eye", "Side-Eye")
  else if score ≥ 30 then ("clutching-cookies", "Clutching Cookies")
  else ("crumbs-everywhere", "Crumbs Everywhere")

/-- Models `computeMood(markets, globalJson)` from `market-overview.js`.
`markets || []` is the identity here because the list is already a list. -/
def computeMood (markets : List MarketAsset) (globalJson : Option GlobalJson) :
    MoodResult :=
  if markets.length = 0 then
    { state := "unknown", label := "Unknown", score := none, metrics := emptyMetrics }
  else
    let score := clampedScore markets globalJson
    let sl := stateForScore score
    { state := sl.1
      label := sl.2
      score := some score
      metrics :=
        { pctUp24h := some (round2 (pctUp24h markets))
          pctUp7d := some (round2 (pctUp7d markets))
          btc30d := btc30d markets
          medianAlt30d := medianAlt30d markets
          leadershipGap30d := leadershipGap30d markets
          marketCapChange24hPct := mcapChange24h globalJson } }

/-- The fixed ordered mood-state sequence of `computeAdjacentStates`. -/
def moodStates : List String :=
  ["crumbs-everywhere", "clutching-cookies", "side-eye", "steady-bite", "snack-mode"]

/-- The `{prev, next}` pair returned by `computeAdjacentStates`. -/
structure Adjacent where
  prev : Option String
  next : Option String
deriving DecidableEq, Repr

/-- JS array indexing with a possibly negative index: `states[i]` is
`undefined` (here `none`) when `i` is out of range, including `i = -1`. -/
def jsIndex (l : List String) (i : ℤ) : Option String :=
  if i < 0 then none else l.get? i.toNat

/-- Models `computeAdjacentStates(state)`: `indexOf` (first occurrence,
`none` for `-1`), then `states[i-1] ?? null` and `states[i+1] ?? null`. -/
def computeAdjacentStates (state : String) : Adjacent :=
  match moodStates.indexOf? state with
  | none => { prev := none, next := none }
  | some i =>
    { prev := jsIndex moodStates ((i : ℤ) - 1)
      next := jsIndex moodStates ((i : ℤ) + 1) }

/-- The mood object the orchestrator builds:
`{...baseMood, adjacent, ghostKey: baseMood.state}`. -/
structure MoodFull where
  base : MoodResult
  adjacent : Adjacent
  ghostKey : String
deriving DecidableEq, Repr

/-- A converter-price row of the upstream `/simple/price` response
(asset identifier with USD/EUR/GBP prices); opaque to the handler logic. -/
structure ConverterPrice where
  id : String
  usd : JsVal
  eur : JsVal
  gbp : JsVal
deriving DecidableEq, Repr

/-- The composite body assembled by `fetchFromCoinGecko` (without `source`). -/
structure Payload where
  markets : List MarketAsset
  trending : List String
  globalStats : Option GlobalJson
  converterPrices : List ConverterPrice
  mood : MoodFull
  top3Snapshot : List Top3Entry
  coins : List CoinRow
deriving DecidableEq, Repr

/-- `CACHE_TTL_MS = 5 * 60 * 1000`. -/
def CACHE_TTL_MS : ℤ := 5 * 60 * 1000

/-- The module-level cache slot `{ ts, data }`. -/
structure Cache where
  ts : ℤ
  data : Option Payload
deriving DecidableEq, Repr

/-- A response emitted by the market-overview handler: either the OPTIONS
preflight (`status(200).end()`, empty body), a 200 JSON body that spreads a
payload and adds a `source` tag, or an error JSON body with a status. -/
inductive HandlerResponse where
  | preflight
  | okPayload (data : Payload) (source : String)
  | errorJson (status : ℕ) (error : String)
deriving DecidableEq, Repr

/-- What one invocation of the market-overview handler produces: the
response, the cache slot it leaves behind, and how many times it invoked
`fetchFromCoinGecko` (0 or 1). -/
structure HandlerOutcome where
  response : HandlerResponse
  cache : Cache
  fetchCalls : ℕ
deriving DecidableEq, Repr

/-- Models the default export `handler(req, res)` of `market-overview.js` as
a function of the request method, the current time (`Date.now()`), the cache
slot before the call, and the result the single `fetchFromCoinGecko()` call
would produce (`Except.error` models a thrown error / rejected promise).
CORS headers are set unconditionally and carry no decision logic, so they
are not modelled.  `cache.data && now - cache.ts < CACHE_TTL_MS` short-circuits
to the miss path when `data` is `null`. -/
def handler (method : String) (now : ℤ) (cache : Cache)
    (fetchResult : Except Unit Payload) : HandlerOutcome :=
  if method = "OPTIONS" then
    { response := .preflight, cache := cache, fetchCalls := 0 }
  else
    let onMiss : HandlerOutcome :=
      match fetchResult with
      | .ok data =>
        { response := .okPayload data "live"
          cache := { ts := now, data := some data }
          fetchCalls := 1 }
      | .error _ =>
        match cache.data with
        | some d =>
          { response := .okPayload d "stale-cache", cache := cache, fetchCalls := 1 }
        | none =>
          { response := .errorJson 500 "Failed to load market data"
            cache := cache, fetchCalls := 1 }
    match cache.data with
    | some d =>
      if now - cache.ts < CACHE_TTL_MS then
        { response := .okPayload d "cache", cache := cache, fetchCalls := 0 }
      else onMiss
    | none => onMiss

/-- The `market` sub-object of an upstream ticker (`t.market?.name`). -/
structure TickerMarket where
  name : Option String
deriving DecidableEq, Repr

/-- A `{usd: ...}` conversion sub-object of an upstream ticker
(`converted_last` / `converted_volume`). -/
structure UsdBox where
  usd : JsVal
deriving DecidableEq, Repr

/-- One entry of the upstream `/coins/<id>/tickers` list, with the fields
`coin-tickers.js` reads; each is optional because the code guards every
access with `?.`, `||` or a truthiness test. -/
structure Ticker where
  base : Option String
  target : Option String
  market : Option TickerMarket
  converted_last : Option UsdBox
  converted_volume : Option UsdBox
deriving DecidableEq, Repr

/-- One projected ticker row `{exchange, pair, price, volume}`. -/
structure TickerOut where
  exchange : String
  pair : String
  price : ℚ
  volume : ℚ
deriving DecidableEq, Repr

/-- `s.includes("USD")`: "USD" occurs as a contiguous substring. -/
def containsUSD (s : String) : Bool :=
  decide (List.IsInfix "USD".data s.data)

/-- `t.market?.name || "Unknown"`: absent market, absent name, or an empty
name all fall back to "Unknown". -/
def exchangeName (t : Ticker) : String :=
  match t.market with
  | none => "Unknown"
  | some m =>
    match m.name with
    | none => "Unknown"
    | some n => if n = "" then "Unknown" else n

/-- `(t.base || "").toUpperCase() + "/" + (t.target || "").toUpperCase()`. -/
def pairName (t : Ticker) : String :=
  jsToUpper (t.base.getD "") ++ "/" ++ jsToUpper (t.target.getD "")

/-- `t.converted_volume?.usd || 0`: absent box, absent/null field, or a
non-numeric value (falsy NaN) all fall back to 0; the number 0 is itself
falsy, so a numeric field always yields its value. -/
def tickerVolume (t : Ticker) : ℚ :=
  match t.converted_volume with
  | none => 0
  | some cv =>
    match cv.usd with
    | .num q => q
    | _ => 0

/-- The filter-and-project pipeline of `coin-tickers.js` for one ticker:
keep it only when `t.target` is truthy, its upper-casing contains "USD",
`t.converted_last` exists and `typeof t.converted_last.usd === "number"`;
then project to `{exchange, pair, price, volume}`. -/
def usdTickerView (t : Ticker) : Option TickerOut :=
  match t.target, t.converted_last with
  | some tgt, some cl =>
    if tgt ≠ "" ∧ containsUSD (jsToUpper tgt) then
      match cl.usd with
      | .num q =>
        some { exchange := exchangeName t, pair := pairName t
               price := q, volume := tickerVolume t }
      | _ => none
    else none
  | _, _ => none

/-- The comparator `(a, b) => (b.volume || 0) - (a.volume || 0)` orders by
descending volume; `volume` is already a defaulted number, so `|| 0` only
maps `0` to itself. -/
def volumeDesc (a b : TickerOut) : Prop :=
  b.volume ≤ a.volume

instance : DecidableRel volumeDesc :=
  fun a b => inferInstanceAs (Decidable (b.volume ≤ a.volume))

/-- The full ticker pipeline of `coin-tickers.js`: filter to USD-quoted
pairs with a numeric converted-USD price, project, sort by descending
volume (JS `sort` is stable, modelled by insertion sort), keep the top 6.
`json.tickers || []` defaults an absent list. -/
def topTickers (tickers : Option (List Ticker)) : List TickerOut :=
  (((tickers.getD []).filterMap usdTickerView).insertionSort volumeDesc).take 6

/-- The upstream response of the CoinGecko tickers fetch as the handler sees
it: the `ok` flag, the numeric status, and the parsed body's `tickers`. -/
structure CgTickersRes where
  ok : Bool
  status : ℕ
  tickers : Option (List Ticker)
deriving DecidableEq, Repr

/-- `req.query.coin || "bitcoin"`: an absent or empty (falsy) query value
falls back to "bitcoin". -/
def coinName (coinQuery : Option String) : String :=
  match coinQuery with
  | none => "bitcoin"
  | some c => if c = "" then "bitcoin" else c

/-- A response of the coin-tickers endpoint. -/
inductive TickersResponse where
  | okTickers (coin : String) (tickers : List TickerOut) (source : String)
  | upstreamError (status : ℕ)
  | serverError (error : String)
deriving DecidableEq, Repr

/-- Models the default export of `coin-tickers.js` as a function of the
`coin` query parameter (`req.query.coin || "bitcoin"`; an empty string is
falsy) and the result of the upstream fetch (`Except.error` models a thrown
transport/parse error).  Non-`ok` upstream responses become a 502 with the
upstream status; any thrown error becomes the generic 500. -/
def coinTickersHandler (coinQuery : Option String)
    (upstream : Except Unit CgTickersRes) : TickersResponse :=
  let coin := coinName coinQuery
  match upstream with
  | .error _ => .serverError "Failed to fetch CoinGecko"
  | .ok res =>
    if res.ok then .okTickers coin (topTickers res.tickers) "live-or-cache"
    else .upstreamError res.status

/-- The fixed state/label 5-tuple of the spec, worst to best. -/
def moodPairs : List (String × String) :=
  [("crumbs-everywhere", "Crumbs Everywhere"),
   ("clutching-cookies", "Clutching Cookies"),
   ("side-eye", "Side-Eye"),
   ("steady-bite", "Steady Bite"),
   ("snack-mode", "Snack Mode")]

/-- A demo mood value used to build concrete payloads in witnesses. -/
def demoMood : MoodResult :=
  { state := "unknown", label := "Unknown", score := none, metrics := emptyMetrics }

/-- A concrete aggregate payload used by witnesses for the handler claims. -/
def demoPayload : Payload :=
  { markets := [], trending := [], globalStats := none, converterPrices := []
    mood := { base := demoMood, adjacent := { prev := none, next := none }
              ghostKey := "unknown" }
    top3Snapshot := [], coins := [] }

/-- C4: on the empty asset list `computeMood` returns the fixed degenerate
result `{state:"unknown", label:"Unknown", score:null, metrics:{}}` for
every global-stats input, which has no influence on it. -/
theorem computeMood_empty_degenerate :
    ∀ globalJson : Option GlobalJson,
      computeMood [] globalJson =
        { state := "unknown", label := "Unknown", score := none
          metrics := emptyMetrics } :=
  fun _ => rfl

/-- C3: with a cached payload strictly younger than the 5-minute TTL, a
non-OPTIONS request returns 200 with the cached payload tagged
`source:"cache"`, performs no upstream fetch (`fetchCalls = 0`, and the
outcome does not depend on what a fetch would return), and leaves the cache
slot unchanged. -/
theorem handler_fresh_cache_hit (method : String) (now : ℤ) (cache : Cache)
    (d : Payload) (fetchResult : Except Unit Payload)
    (hm : method ≠ "OPTIONS") (hd : cache.data = some d)
    (hfresh : now - cache.ts < CACHE_TTL_MS) :
    handler method now cache fetchResult =
      { response := .okPayload d "cache", cache := cache, fetchCalls := 0 } := by
  simp [handler, hm, hd, hfresh]

/-- Witness for C3: cache populated 1 minute ago (TTL is 5 minutes). -/
theorem handler_fresh_cache_hit_witness :
    handler "GET" 60000 { ts := 0, data := some demoPayload } (.error ()) =
      { response := .okPayload demoPayload "cache"
        cache := { ts := 0, data := some demoPayload }, fetchCalls := 0 } :=
  handler_fresh_cache_hit "GET" 60000 { ts := 0, data := some demoPayload }
    demoPayload (.error ()) (by decide) rfl (by decide)

/-- C2: on orchestration failure past the TTL, a cached payload of any age
is served unchanged as 200 `source:"stale-cache"` and the slot is neither
refreshed nor evicted; with no cached payload the response is a 500 with
body `{error: "Failed to load market data"}`. -/
theorem handler_stale_fallback (method : String) (now : ℤ) (cache : Cache)
    (hm : method ≠ "OPTIONS") (hstale : ¬ now - cache.ts < CACHE_TTL_MS) :
    (∀ d, cache.data = some d →
        handler method now cache (.error ()) =
          { response := .okPayload d "stale-cache", cache := cache
            fetchCalls := 1 }) ∧
    (cache.data = none →
        handler method now cache (.error ()) =
          { response := .errorJson 500 "Failed to load market data"
            cache := cache, fetchCalls := 1 }) := by
  constructor
  · intro d hd
    simp [handler, hm, hd, hstale]
  · intro hd
    simp [handler, hm, hd]

/-- Witness for C2: a 10-minute-old cache entry is served as stale-cache
after a failed fetch, with the slot untouched. -/
theorem handler_stale_fallback_witness :
    handler "GET" 600000 { ts := 0, data := some demoPayload } (.error ()) =
      { response := .okPayload demoPayload "stale-cache"
        cache := { ts := 0, data := some demoPayload }, fetchCalls := 1 } :=
  (handler_stale_fallback "GET" 600000 { ts := 0, data := some demoPayload }
    (by decide) (by decide)).1 demoPayload rfl

/-- C7: `computeAdjacentStates` is total over the fixed 5-state sequence:
any state outside the sequence maps to `{prev:null, next:null}`, each of the
five states maps to its neighbours with `null` at the boundaries (each
boundary state has exactly one null side), and `next(prev(s)) = s` whenever
`prev(s)` exists. -/
theorem computeAdjacentStates_total :
    (∀ s, s ∉ moodStates →
        computeAdjacentStates s = { prev := none, next := none }) ∧
    computeAdjacentStates "crumbs-everywhere" =
      { prev := none, next := some "clutching-cookies" } ∧
    computeAdjacentStates "clutching-cookies" =
      { prev := some "crumbs-everywhere", next := some "side-eye" } ∧
    computeAdjacentStates "side-eye" =
      { prev := some "clutching-cookies", next := some "steady-bite" } ∧
    computeAdjacentStates "steady-bite" =
      { prev := some "side-eye", next := some "snack-mode" } ∧
    computeAdjacentStates "snack-mode" =
      { prev := some "steady-bite", next := none } ∧
    (∀ s ∈ moodStates, ∀ p, (computeAdjacentStates s).prev = some p →
        (computeAdjacentStates p).next = some s) := by
  refine ⟨?_, by decide, by decide, by decide, by decide, by decide, ?_⟩
  · intro s hs
    have h : List.indexOf? s moodStates = none := by
      rw [List.indexOf?_eq_none_iff]
      intro x hx
      simp only [beq_iff_eq]
      intro he
      exact hs (he ▸ hx)
    simp [computeAdjacentStates, h]
  · intro s hs p hp
    fin_cases hs
    · rw [show (computeAdjacentStates "crumbs-everywhere").prev = none from by decide]
        at hp
      exact Option.noConfusion hp
    · rw [show (computeAdjacentStates "clutching-cookies").prev =
          some "crumbs-everywhere" from by decide] at hp
      injection hp with h
      subst h; decide
    · rw [show (computeAdjacentStates "side-eye").prev =
          some "clutching-cookies" from by decide] at hp
      injection hp with h
      subst h; decide
    · rw [show (computeAdjacentStates "steady-bite").prev =
          some "side-eye" from by decide] at hp
      injection hp with h
      subst h; decide
    · rw [show (computeAdjacentStates "snack-mode").prev =
          some "steady-bite" from by decide] at hp
      injection hp with h
      subst h; decide

/-- Witness for C7: a state outside the sequence yields two nulls. -/
theorem computeAdjacentStates_total_witness :
    computeAdjacentStates "unknown" = { prev := none, next := none } :=
  computeAdjacentStates_total.1 "unknown" (by decide)

/-- C8: `median` discards non-finite coercions, returns null exactly when
nothing remains, and returns the midpoint of the sorted remaining values
(the average of the two central elements for an even count), matching the
documented examples. -/
theorem median_spec :
    median [] = none ∧
    median [.num 5] = some 5 ∧
    median [.num 1, .num 3] = some 2 ∧
    median [.num 3, .num 1, .num 2] = some 2 ∧
    (∀ values, median values = none ↔ values.filterMap safeNumber = []) ∧
    (∀ a b : ℚ, median [.num a, .num b] = some ((a + b) / 2)) := by
  refine ⟨rfl, by decide, ?_, by decide, ?_, ?_⟩
  · norm_num [median, safeNumber, List.insertionSort, List.orderedInsert]
  · intro values
    simp only [median]
    split
    · next h =>
      have hp := List.perm_insertionSort (· ≤ ·) (values.filterMap safeNumber)
      have hl : (values.filterMap safeNumber).length = 0 := by
        rw [← hp.length_eq]; exact h
      simp [List.length_eq_zero.mp hl]
    · next h =>
      have hl : values.filterMap safeNumber ≠ [] := by
        intro he
        exact h (by rw [he]; rfl)
      simp only [hl, iff_false]
      split <;> simp
  · intro a b
    by_cases h : a ≤ b
    · norm_num [median, safeNumber, List.insertionSort, List.orderedInsert, h]
    · norm_num [median, safeNumber, List.insertionSort, List.orderedInsert, h]
      rw [add_comm]

/-- The JS `Map` lookup is the LAST list entry with the given id. -/
theorem mapLookup_eq_getLast (markets : List MarketAsset) (id : String) :
    mapLookup markets id =
      (markets.filter (fun c => c.id = id)).getLast? := by
  induction markets using List.reverseRecOn with
  | nil => rfl
  | append_singleton l c ih =>
    by_cases h : c.id = id
    · simp [mapLookup, List.foldl_append, h, List.filter_append,
        List.getLast?_concat]
    · simp only [mapLookup, List.foldl_append, List.filter_append,
        List.filter_cons, h, List.foldl_cons, List.foldl_nil,
        decide_eq_true_eq, List.filter_nil, List.append_nil]
      simpa using ih

/-- A successful `mapLookup` returns a list member carrying the looked-up id. -/
theorem mapLookup_some {markets : List MarketAsset} {id : String}
    {c : MarketAsset} (h : mapLookup markets id = some c) :
    c ∈ markets ∧ c.id = id := by
  rw [mapLookup_eq_getLast] at h
  have hm := List.mem_of_mem_getLast? h
  have := List.mem_filter.mp hm
  exact ⟨this.1, by simpa using this.2⟩

/-- Decomposition of membership in the top-3 snapshot. -/
theorem mem_computeTop3Snapshot {markets : List MarketAsset} {e : Top3Entry}
    (he : e ∈ computeTop3Snapshot markets) :
    ∃ c, c ∈ markets ∧ c.id ∈ top3Ids ∧ mapLookup markets c.id = some c ∧
      e = top3Project c := by
  rcases List.mem_filterMap.mp he with ⟨id, hid, hmap⟩
  rcases Option.map_eq_some'.mp hmap with ⟨c, hc, hproj⟩
  rcases mapLookup_some hc with ⟨hcm, hcid⟩
  exact ⟨c, hcm, hcid ▸ hid, hcid ▸ hc, hproj.symm⟩

/-- Two distinct listing entries sharing the id "bitcoin", to probe
duplicate handling. -/
def dupFirst : MarketAsset :=
  { id := "bitcoin", name := "First", symbol := "btc"
    current_price := .num 1
    price_change_percentage_24h_in_currency := .jnull
    price_change_percentage_7d_in_currency := .jnull
    price_change_percentage_30d_in_currency := .jnull
    market_cap := .num 1 }

/-- The later duplicate entry; differs from `dupFirst` in every numeric field
and the display name. -/
def dupSecond : MarketAsset :=
  { id := "bitcoin", name := "Second", symbol := "btc"
    current_price := .num 2
    price_change_percentage_24h_in_currency := .jnull
    price_change_percentage_7d_in_currency := .jnull
    price_change_percentage_30d_in_currency := .jnull
    market_cap := .num 2 }

/-- Counterexample to C6 as stated: with duplicate entries for "bitcoin",
the snapshot projects the LAST matching entry, not the first — the JS `Map`
constructor overwrites earlier values for a repeated key. -/
theorem computeTop3Snapshot_first_match_false :
    computeTop3Snapshot [dupFirst, dupSecond] = [top3Project dupSecond] ∧
    computeTop3Snapshot [dupFirst, dupSecond] ≠ [top3Project dupFirst] ∧
    dupFirst.id = "bitcoin" ∧ dupSecond.id = "bitcoin" ∧
    top3Project dupFirst ≠ top3Project dupSecond := by decide

/-- C6 (amended: last match wins, not first): the snapshot has at most 3
entries; its ids are exactly the fixed ids present in the listing, in the
fixed order; and each entry is the projection of the LAST listing entry with
its id. -/
theorem computeTop3Snapshot_shape (markets : List MarketAsset) :
    (computeTop3Snapshot markets).length ≤ 3 ∧
    (computeTop3Snapshot markets).map Top3Entry.id =
      top3Ids.filter
        (fun id => !(markets.filter (fun c => c.id = id)).isEmpty) ∧
    (∀ e ∈ computeTop3Snapshot markets,
      ∃ c, (markets.filter (fun x => x.id = e.id)).getLast? = some c ∧
        e = top3Project c ∧ c ∈ markets) := by
  refine ⟨List.length_filterMap_le _ _, ?_, ?_⟩
  · have aux : ∀ ids : List String,
        ((ids.filterMap
            (fun id => (mapLookup markets id).map top3Project)).map
          Top3Entry.id) =
          ids.filter
            (fun id => !(markets.filter (fun c => c.id = id)).isEmpty) := by
      intro ids
      induction ids with
      | nil => rfl
      | cons id ids ih =>
        rw [List.filterMap_cons, List.filter_cons]
        cases hml : mapLookup markets id with
        | none =>
          have hfe : markets.filter (fun c => c.id = id) = [] := by
            rw [mapLookup_eq_getLast] at hml
            exact List.getLast?_eq_none_iff.mp hml
          simp [hfe, ih]
        | some c =>
          have hcid : c.id = id := (mapLookup_some hml).2
          have hne : markets.filter (fun c => c.id = id) ≠ [] := by
            intro he
            rw [mapLookup_eq_getLast, he] at hml
            exact Option.noConfusion hml
          simp [hne, ih, top3Project, hcid]
    exact aux top3Ids
  · intro e he
    rcases mem_computeTop3Snapshot he with ⟨c, hcm, _, hml, rfl⟩
    refine ⟨c, ?_, rfl, hcm⟩
    rw [← mapLookup_eq_getLast]
    exact hml

/-- Witness for C6 (amended): with duplicated "bitcoin" entries, the
projected entry is the projection of the last matching listing entry. -/
theorem computeTop3Snapshot_shape_witness :
    ∃ c, (([dupFirst, dupSecond].filter
        (fun x => x.id = (top3Project dupSecond).id)).getLast? = some c) ∧
      top3Project dupSecond = top3Project c ∧ c ∈ [dupFirst, dupSecond] :=
  (computeTop3Snapshot_shape [dupFirst, dupSecond]).2.2
    (top3Project dupSecond) (by decide)

/-- C10: every numeric field of every snapshot entry is the `safeNumber`
image of the matching upstream field, and `safeNumber` yields a value only
for `null` (which coerces to 0) or a finite number — never for a non-finite
coercion (absent field or non-numeric value). -/
theorem top3Snapshot_numeric_fields_safe :
    (∀ markets : List MarketAsset, ∀ e ∈ computeTop3Snapshot markets,
      ∃ c, c ∈ markets ∧
        e.priceUsd = safeNumber c.current_price ∧
        e.change24hPct = safeNumber c.price_change_percentage_24h_in_currency ∧
        e.change30dPct = safeNumber c.price_change_percentage_30d_in_currency ∧
        e.marketCapUsd = safeNumber c.market_cap) ∧
    (∀ v q, safeNumber v = some q → v = .jnull ∨ v = .num q) ∧
    safeNumber .undef = none ∧ safeNumber .nonNumeric = none := by
  refine ⟨?_, ?_, rfl, rfl⟩
  · intro markets e he
    rcases mem_computeTop3Snapshot he with ⟨c, hcm, _, _, rfl⟩
    exact ⟨c, hcm, rfl, rfl, rfl, rfl⟩
  · intro v q h
    cases v with
    | undef => exact Option.noConfusion h
    | jnull => exact Or.inl rfl
    | num p => injection h with h2; exact Or.inr (by rw [h2])
    | nonNumeric => exact Option.noConfusion h

/-- A concrete one-asset listing used by witnesses. -/
def demoAsset : MarketAsset :=
  { id := "bitcoin", name := "Bitcoin", symbol := "btc"
    current_price := .num 50000
    price_change_percentage_24h_in_currency := .num 1
    price_change_percentage_7d_in_currency := .num 2
    price_change_percentage_30d_in_currency := .num 10
    market_cap := .num 900 }

/-- Witness for C10 at a concrete listing. -/
theorem top3Snapshot_numeric_fields_safe_witness :
    ∃ c, c ∈ [demoAsset] ∧
      (top3Project demoAsset).priceUsd = safeNumber c.current_price ∧
      (top3Project demoAsset).change24hPct =
        safeNumber c.price_change_percentage_24h_in_currency ∧
      (top3Project demoAsset).change30dPct =
        safeNumber c.price_change_percentage_30d_in_currency ∧
      (top3Project demoAsset).marketCapUsd = safeNumber c.market_cap :=
  top3Snapshot_numeric_fields_safe.1 [demoAsset] (top3Project demoAsset)
    (by decide)

/-- A successful JS index read returns a list element. -/
theorem jsIndex_mem {l : List String} {i : ℤ} {x : String}
    (h : jsIndex l i = some x) : x ∈ l := by
  unfold jsIndex at h
  split at h
  · exact Option.noConfusion h
  · exact List.get?_mem h

/-- The threshold chain always lands on one of the five fixed pairs. -/
theorem stateForScore_mem_moodPairs (s : ℤ) :
    ((stateForScore s).1, (stateForScore s).2) ∈ moodPairs := by
  unfold stateForScore
  split_ifs <;> decide

/-- Counterexample to C5 as stated: on the empty asset list the mood state
is "unknown"/"Unknown", which is not one of the fixed 5-tuple pairs, so the
state/label clause does not hold for every input. -/
theorem computeMood_empty_state_outside_pairs :
    (computeMood [] none).state = "unknown" ∧
    (computeMood [] none).label = "Unknown" ∧
    ("unknown", "Unknown") ∉ moodPairs ∧
    (computeMood [] none).state ∉ moodStates := by decide

/-- C5 (amended: the state/label 5-tuple clause holds whenever input assets
exist; the empty list yields the degenerate unknown/Unknown pair): for
non-empty input the state/label pair is one of the fixed five and the score
is an integer clamped to [0,100]; `adjacent` fields are always valid states
of the sequence or null. -/
theorem computeMood_state_invariants (markets : List MarketAsset)
    (globalJson : Option GlobalJson) :
    (markets ≠ [] →
      ((computeMood markets globalJson).state,
        (computeMood markets globalJson).label) ∈ moodPairs ∧
      ∃ s, (computeMood markets globalJson).score = some s ∧
        0 ≤ s ∧ s ≤ 100) ∧
    (∀ st : String,
      ((computeAdjacentStates st).prev = none ∨
        ∃ p, (computeAdjacentStates st).prev = some p ∧ p ∈ moodStates) ∧
      ((computeAdjacentStates st).next = none ∨
        ∃ n, (computeAdjacentStates st).next = some n ∧ n ∈ moodStates)) := by
  constructor
  · intro hne
    have hlen : ¬ markets.length = 0 := by
      simpa [List.length_eq_zero] using hne
    constructor
    · simpa [computeMood, hlen] using
        stateForScore_mem_moodPairs (clampedScore markets globalJson)
    · refine ⟨clampedScore markets globalJson, by simp [computeMood, hlen], ?_, ?_⟩
      · exact le_max_left 0 _
      · exact max_le (by norm_num) (min_le_left _ _)
  · intro st
    unfold computeAdjacentStates
    cases h : List.indexOf? st moodStates with
    | none => exact ⟨Or.inl rfl, Or.inl rfl⟩
    | some i =>
      constructor
      · cases hj : jsIndex moodStates ((i : ℤ) - 1) with
        | none => exact Or.inl hj
        | some p => exact Or.inr ⟨p, hj, jsIndex_mem hj⟩
      · cases hj : jsIndex moodStates ((i : ℤ) + 1) with
        | none => exact Or.inl hj
        | some n => exact Or.inr ⟨n, hj, jsIndex_mem hj⟩

/-- Witness for C5 (amended) on a concrete non-empty listing. -/
theorem computeMood_state_invariants_witness :
    ((computeMood [demoAsset] none).state,
      (computeMood [demoAsset] none).label) ∈ moodPairs :=
  ((computeMood_state_invariants [demoAsset] none).1 (by decide)).1

/-- `round` is monotone on rationals. -/
theorem round_le_of_le {a b : ℚ} (h : a ≤ b) : round a ≤ round b := by
  rw [round_eq, round_eq]
  exact Int.floor_le_floor (by linarith)

/-- Rounding commutes with clamping to the integer bounds 0 and 100. -/
theorem round_clamp_comm (q : ℚ) :
    round (max 0 (min 100 q)) = max 0 (min 100 (round q)) := by
  have h100 : round (100 : ℚ) = 100 := by
    rw [show (100 : ℚ) = ((100 : ℤ) : ℚ) by norm_num, round_intCast]
  have h0 : round (0 : ℚ) = 0 := round_zero
  rcases le_total q 0 with hq | hq
  · rw [min_eq_right (le_trans hq (by norm_num)), max_eq_left hq, h0]
    have hr : round q ≤ 0 := h0 ▸ round_le_of_le hq
    rw [min_eq_right (le_trans hr (by norm_num)), max_eq_left hr]
  · rcases le_total q 100 with hq100 | hq100
    · rw [min_eq_right hq100, max_eq_right hq]
      have hr0 : 0 ≤ round q := h0 ▸ round_le_of_le hq
      have hr100 : round q ≤ 100 := h100 ▸ round_le_of_le hq100
      rw [min_eq_right hr100, max_eq_right hr0]
    · rw [min_eq_left hq100, max_eq_right (by norm_num : (0:ℚ) ≤ 100), h100]
      have hr : 100 ≤ round q := h100 ▸ round_le_of_le hq100
      rw [min_eq_left hr, max_eq_right (by norm_num : (0:ℤ) ≤ 100)]

/-- The code's always-subtract-`max(0, gap)` form agrees with the spec's
subtract-only-a-positive-gap form. -/
theorem gapTerm_eq (g : ℚ) :
    max 0 g * (1/2) = if 0 < g then g * (1/2) else 0 := by
  rcases le_or_lt g 0 with h | h
  · rw [max_eq_left h, if_neg (not_lt.mpr h), zero_mul]
  · rw [max_eq_right (le_of_lt h), if_pos h]

/-- The documented blend, written from the spec's words: start at 50, add
`(pctUp24h - 0.5) * 40` and `(pctUp7d - 0.5) * 40`, subtract
`leadershipGap30d * 0.5` only when the gap is non-null and positive (a
negative gap applies no penalty), add the global market-cap change `* 1.5`
when it is non-null, then clamp to `[0, 100]` and round to the nearest
integer. -/
def specMoodScore (pUp24 pUp7 : ℚ) (gap mcap : Option ℚ) : ℤ :=
  let s := 50 + (pUp24 - 1/2) * 40 + (pUp7 - 1/2) * 40
    - (match gap with
       | some g => if 0 < g then g * (1/2) else 0
       | none => 0)
    + (match mcap with
       | some m => m * (3/2)
       | none => 0)
  round (max 0 (min 100 s))

/-- C1: for every non-empty asset list the mood score equals the documented
blend (`specMoodScore`) applied to the code's breadth fractions, leadership
gap and global change, and it is an integer in [0, 100]. -/
theorem computeMood_score_formula (markets : List MarketAsset)
    (globalJson : Option GlobalJson) (hne : markets ≠ []) :
    (computeMood markets globalJson).score =
      some (specMoodScore (pctUp24h markets) (pctUp7d markets)
        (leadershipGap30d markets) (mcapChange24h globalJson)) ∧
    ∃ s : ℤ, (computeMood markets globalJson).score = some s ∧
      0 ≤ s ∧ s ≤ 100 := by
  have hlen : ¬ markets.length = 0 := by
    simpa [List.length_eq_zero] using hne
  have hscore : (computeMood markets globalJson).score =
      some (clampedScore markets globalJson) := by
    simp [computeMood, hlen]
  constructor
  · rw [hscore]
    have hraw : specMoodScore (pctUp24h markets) (pctUp7d markets)
        (leadershipGap30d markets) (mcapChange24h globalJson) =
        round (max 0 (min 100 (rawScore markets globalJson))) := by
      cases hgap : leadershipGap30d markets with
      | none => simp [specMoodScore, rawScore, hgap]
      | some g =>
        simp only [specMoodScore, rawScore, hgap]
        rcases le_or_lt g 0 with h | h
        · rw [if_neg (not_lt.mpr h), max_eq_left h, zero_mul]
        · rw [if_pos h, max_eq_right (le_of_lt h)]
    rw [hraw, round_clamp_comm]
    rfl
  · rw [hscore]
    exact ⟨clampedScore markets globalJson, rfl, le_max_left 0 _,
      max_le (by norm_num) (min_le_left _ _)⟩

/-- Witness for C1 on a concrete one-asset listing. -/
theorem computeMood_score_formula_witness :
    (computeMood [demoAsset] none).score =
      some (specMoodScore (pctUp24h [demoAsset]) (pctUp7d [demoAsset])
        (leadershipGap30d [demoAsset]) (mcapChange24h none)) ∧
    ∃ s : ℤ, (computeMood [demoAsset] none).score = some s ∧
      0 ≤ s ∧ s ≤ 100 :=
  computeMood_score_formula [demoAsset] none (by decide)

instance : IsTotal TickerOut volumeDesc :=
  ⟨fun a b => le_total b.volume a.volume⟩

instance : IsTrans TickerOut volumeDesc :=
  ⟨fun _ _ _ hab hbc => le_trans hbc hab⟩

/-- A USD-quoted ticker with converted price 100 and volume 5. -/
def tickLow : Ticker :=
  { base := some "BTC", target := some "USD"
    market := some { name := some "Alpha" }
    converted_last := some { usd := .num 100 }
    converted_volume := some { usd := .num 5 } }

/-- A USD-quoted ticker with converted price 200 and volume 50. -/
def tickHigh : Ticker :=
  { base := some "BTC", target := some "USDT"
    market := some { name := some "Beta" }
    converted_last := some { usd := .num 200 }
    converted_volume := some { usd := .num 50 } }

/-- C9: the coin-tickers 200 result has at most 6 entries, is sorted by
descending volume, contains only projections of qualifying upstream tickers
(USD-quoted with a numeric converted-USD price), is exactly the pipeline
output on the handler's success path, and on the documented two-ticker
scenario (volumes 5 and 50) puts the 50-volume entry first. -/
theorem coinTickers_spec :
    (∀ ts, (topTickers ts).length ≤ 6) ∧
    (∀ ts, (topTickers ts).Sorted volumeDesc) ∧
    (∀ ts e, e ∈ topTickers ts →
      ∃ t ∈ ts.getD [], usdTickerView t = some e) ∧
    (∀ coinQuery res, res.ok = true →
      coinTickersHandler coinQuery (.ok res) =
        .okTickers (coinName coinQuery) (topTickers res.tickers)
          "live-or-cache") ∧
    topTickers (some [tickLow, tickHigh]) =
      [{ exchange := "Beta", pair := "BTC/USDT", price := 200, volume := 50 },
       { exchange := "Alpha", pair := "BTC/USD", price := 100, volume := 5 }]
    := by
  refine ⟨?_, ?_, ?_, ?_, by decide⟩
  · intro ts
    unfold topTickers
    exact le_trans (le_of_eq (List.length_take _ _)) (min_le_left _ _)
  · intro ts
    unfold topTickers
    exact List.Pairwise.sublist (List.take_sublist _ _)
      (List.sorted_insertionSort volumeDesc _)
  · intro ts e he
    unfold topTickers at he
    have h1 := List.take_subset _ _ he
    have h2 := ((List.perm_insertionSort volumeDesc _).mem_iff).mp h1
    exact List.mem_filterMap.mp h2
  · intro cq res hok
    simp [coinTickersHandler, hok]

/-- Witness for C9: the handler's success path at the concrete scenario. -/
theorem coinTickers_spec_witness :
    coinTickersHandler none
        (.ok { ok := true, status := 200
               tickers := some [tickLow, tickHigh] }) =
      .okTickers (coinName none) (topTickers (some [tickLow, tickHigh]))
        "live-or-cache" :=
  coinTickers_spec.2.2.2.1 none
    { ok := true, status := 200, tickers := some [tickLow, tickHigh] } rfl
